import Mathlib

/-
Verification of the authentication and credential lifecycle of a FastAPI
backend (route handlers in app/api/endpoints/auth.py, application wiring in
app/main.py). The route handlers are translated directly from the source.
The Auth Service they call (app/services/auth.py) is not part of the given
sources; its operations are modelled from the specification, as marked on
each definition.
-/

namespace BackendTemplate

/-- Purpose tag of a stored token: email verification or password reset.
Access tokens are stateless and modelled separately. -/
inductive TokenPurpose where
  | verification
  | passwordReset
deriving DecidableEq, Repr

/-- A stored single-use token: opaque value, owning user identity (email),
expiry timestamp, consumed flag, purpose tag. -/
structure Token where
  value : String
  owner : String
  expiry : Int
  consumed : Bool
  purpose : TokenPurpose
deriving DecidableEq, Repr

/-- A user record: case-normalized email identity, password hash,
email-verified flag, and the database record id (the Mongo id, a string). -/
structure User where
  email : String
  passwordHash : String
  verified : Bool
  id : String
deriving DecidableEq, Repr

/-- A Python datetime, reduced to what the resend-verification handler
inspects: whether tzinfo is set (aware) and the UTC wall-clock instant in
seconds. `replace(tzinfo=timezone.utc)` keeps the instant and sets aware. -/
structure PyDatetime where
  aware : Bool
  t : Int
deriving DecidableEq, Repr

/-- `datetime.replace(tzinfo=timezone.utc)`: same wall-clock value, now
timezone-aware. -/
def dt_replace_utc (d : PyDatetime) : PyDatetime := { d with aware := true }

/-- Python datetime subtraction: defined when both operands agree on
awareness (both aware, here always UTC, or both naive); mixing an aware and
a naive datetime raises TypeError, modelled as `none`. -/
def tdSub (a b : PyDatetime) : Option Int :=
  if a.aware == b.aware then some (a.t - b.t) else none

/-- The domain errors raised by the Auth Service, plus `typeError` for the
Python TypeError of mixed aware/naive datetime subtraction and `emailTaken`
for the unnamed registration failure. Modelled from the spec: the error
kinds are WeakPasswordError, IncorrectPasswordError, InvalidTokenError,
UserNotFoundError and ValueError(same-password); the spec names no error
kind for "fails if email already registered", so it is a distinct kind. -/
inductive AuthError where
  | weakPassword
  | incorrectPassword
  | invalidToken
  | userNotFound
  | emailTaken
  | valueError (msg : String)
  | typeError
deriving DecidableEq, Repr

/-- Full service state: user records, stored single-use tokens, the
per-user last-verification-sent log, and a log of dispatched emails. -/
structure AuthState where
  users : List User
  tokens : List Token
  lastVerificationSent : List (String × PyDatetime)
  sentEmails : List String
deriving DecidableEq, Repr

/-- Modelled from the spec: email identity is unique and case-normalized.
Case normalization lowercases every character (String.toLower, written over
the character list so terms reduce). -/
def normalize_email (e : String) : String := String.mk (e.data.map Char.toLower)

instance {ε α : Type} [DecidableEq ε] [DecidableEq α] : DecidableEq (Except ε α) :=
  fun a b =>
    match a, b with
    | .ok x, .ok y =>
      if h : x = y then .isTrue (by rw [h])
      else .isFalse (fun hc => h (Except.ok.inj hc))
    | .error x, .error y =>
      if h : x = y then .isTrue (by rw [h])
      else .isFalse (fun hc => h (Except.error.inj hc))
    | .ok _, .error _ => .isFalse (fun hc => Except.noConfusion hc)
    | .error _, .ok _ => .isFalse (fun hc => Except.noConfusion hc)

/-- Modelled from the spec: password hashing is delegated to an external
library; modelled as an injective tagging function, so the hash never
equals the plaintext and verification is hash equality. -/
def hashPw (p : String) : String := "bcrypt$" ++ p

/-- A password contains at least one letter. -/
def has_letter (p : String) : Bool := p.data.any (fun c => c.isAlpha)

/-- A password contains at least one digit. -/
def has_digit (p : String) : Bool := p.data.any (fun c => c.isDigit)

/-- Modelled from the spec: the single password-strength predicate of the
Password Policy — minimum 8 characters, at least one letter, at least one
digit. -/
def strength_ok (p : String) : Bool :=
  decide (8 ≤ p.length) && has_letter p && has_digit p

/-- Does a user with this (normalized) email already exist. -/
def email_registered (s : AuthState) (email : String) : Bool :=
  s.users.any (fun u => u.email == normalize_email email)

/-- Modelled from the spec: `create_user_with_verification` validates
password strength (WeakPasswordError), fails if the email is already
registered, persists a new unverified user, issues a 24-hour verification
token, dispatches a verification email and records the send time (the
stored timestamp is timezone-naive UTC, which the resend handler later
normalizes). Fresh randomness (token value, record id) and the clock are
passed in as parameters. -/
def create_user_with_verification (s : AuthState) (email password : String)
    (now : Int) (newTok newId : String) : Except AuthError (User × AuthState) :=
  if strength_ok password = false then .error .weakPassword
  else if email_registered s email then .error .emailTaken
  else
    let u : User := { email := normalize_email email, passwordHash := hashPw password,
                      verified := false, id := newId }
    .ok (u, { s with
      users := u :: s.users,
      tokens := { value := newTok, owner := u.email, expiry := now + 86400,
                  consumed := false, purpose := .verification } :: s.tokens,
      lastVerificationSent := (u.email, { aware := false, t := now }) :: s.lastVerificationSent,
      sentEmails := u.email :: s.sentEmails })

/-- Modelled from the spec: `authenticate_user` looks up the user by
normalized email, returns none if not found, verifies the password against
the stored hash, returns the user on success and none on mismatch. -/
def authenticate_user (s : AuthState) (email password : String) : Option User :=
  match s.users.find? (fun u => u.email == normalize_email email) with
  | none => none
  | some u => if hashPw password == u.passwordHash then some u else none

/-- The ValueError message for a new password equal to the current one.
Modelled from the spec: ValueError(same-password). -/
def samePasswordMsg : String :=
  "New password must be different from the current password"

/-- Modelled from the spec: `update_password` fails with
IncorrectPasswordError if current_password does not match, with ValueError
if new_password equals current_password, with WeakPasswordError if
new_password fails the strength policy, and otherwise replaces the stored
hash. -/
def update_password (s : AuthState) (userId current new : String) :
    Except AuthError AuthState :=
  match s.users.find? (fun u => u.id == userId) with
  | none => .error .userNotFound
  | some u =>
    if (hashPw current == u.passwordHash) = false then .error .incorrectPassword
    else if (new == current) = true then .error (.valueError samePasswordMsg)
    else if strength_ok new = false then .error .weakPassword
    else .ok { s with
      users := s.users.map (fun v =>
        if v.id == userId then { v with passwordHash := hashPw new } else v) }

/-- Modelled from the spec: `verify_email` fails with InvalidTokenError if
the token is absent, already consumed, of the wrong purpose, or expired
(valid only while current time < expiry); otherwise sets the owning user
verified and marks the token consumed. -/
def verify_email (s : AuthState) (tok : String) (now : Int) :
    Except AuthError AuthState :=
  match s.tokens.find? (fun tk => tk.value == tok) with
  | none => .error .invalidToken
  | some t =>
    if t.consumed = true then .error .invalidToken
    else if (t.purpose == TokenPurpose.verification) = false then .error .invalidToken
    else if decide (now < t.expiry) = false then .error .invalidToken
    else .ok { s with
      users := s.users.map (fun v =>
        if v.email == t.owner then { v with verified := true } else v),
      tokens := s.tokens.map (fun tk =>
        if tk.value == tok then { tk with consumed := true } else tk) }

/-- Modelled from the spec: `get_last_verification_sent` returns the
last-sent timestamp for the rate-limit check, or none. -/
def get_last_verification_sent (s : AuthState) (email : String) : Option PyDatetime :=
  (s.lastVerificationSent.find? (fun kv => kv.1 == normalize_email email)).map (fun kv => kv.2)

/-- Modelled from the spec: `resend_verification` fails with
UserNotFoundError if no such user; otherwise issues a fresh 24-hour
verification token, dispatches the email and updates the last-sent
timestamp to now (stored timezone-naive UTC). -/
def resend_verification (s : AuthState) (email : String) (now : Int)
    (newTok : String) : Except AuthError AuthState :=
  match s.users.find? (fun u => u.email == normalize_email email) with
  | none => .error .userNotFound
  | some u =>
    .ok { s with
      tokens := { value := newTok, owner := u.email, expiry := now + 86400,
                  consumed := false, purpose := .verification } :: s.tokens,
      lastVerificationSent := (u.email, { aware := false, t := now }) :: s.lastVerificationSent,
      sentEmails := u.email :: s.sentEmails }

/-- Modelled from the spec: `send_password_reset` fails with
UserNotFoundError if no such user; otherwise issues a 1-hour reset token
and dispatches the email. -/
def send_password_reset (s : AuthState) (email : String) (now : Int)
    (newTok : String) : Except AuthError AuthState :=
  match s.users.find? (fun u => u.email == normalize_email email) with
  | none => .error .userNotFound
  | some u =>
    .ok { s with
      tokens := { value := newTok, owner := u.email, expiry := now + 3600,
                  consumed := false, purpose := .passwordReset } :: s.tokens,
      sentEmails := u.email :: s.sentEmails }

/-- Modelled from the spec: `reset_password` fails with InvalidTokenError
under the same conditions as verify_email (with purpose password-reset),
with WeakPasswordError if the new password is weak; otherwise replaces the
stored hash and consumes the token. -/
def reset_password (s : AuthState) (tok new : String) (now : Int) :
    Except AuthError AuthState :=
  match s.tokens.find? (fun tk => tk.value == tok) with
  | none => .error .invalidToken
  | some t =>
    if t.consumed = true then .error .invalidToken
    else if (t.purpose == TokenPurpose.passwordReset) = false then .error .invalidToken
    else if decide (now < t.expiry) = false then .error .invalidToken
    else if strength_ok new = false then .error .weakPassword
    else .ok { s with
      users := s.users.map (fun v =>
        if v.email == t.owner then { v with passwordHash := hashPw new } else v),
      tokens := s.tokens.map (fun tk =>
        if tk.value == tok then { tk with consumed := true } else tk) }

/-- The stateless access token issued at login, reduced to its subject
claim; src: app/core/security.create_access_token is called with
data with sub set to str of the user Mongo id. -/
structure AccessToken where
  sub : String
deriving DecidableEq, Repr

/-- src line 61: create_access_token over the payload. -/
def create_access_token (sub : String) : AccessToken := { sub := sub }

/-- Outcome of one route handler: an HTTP response (status, detail body,
resulting state) or an exception the handler does not catch, which
propagates out of the route. -/
inductive HandlerOutcome where
  | response (status : Nat) (detail : String) (s : AuthState)
  | unhandled (e : AuthError) (s : AuthState)
deriving DecidableEq, Repr

/-- The state after a handler ran. -/
def outcome_state : HandlerOutcome → AuthState
  | .response _ _ s => s
  | .unhandled _ s => s

/-- Modelled from the spec: all unexpected exceptions not caught by a route
surface as a generic 500 with no sensitive detail. -/
def serve : HandlerOutcome → Nat × String × AuthState
  | .response st d s => (st, d, s)
  | .unhandled _ s => (500, "Internal Server Error", s)

/-- The fixed weak-password message used by the register, change-password
and reset-password handlers (src auth.py). -/
def weakPasswordMsg : String :=
  "Password must be at least 8 characters long and contain at least one number and one letter"

/-- src register handler except clause: only WeakPasswordError is caught,
mapped to 400 with the fixed message. -/
def register_error_response : AuthError → Option (Nat × String)
  | .weakPassword => some (400, weakPasswordMsg)
  | _ => none

/-- src POST /auth/register: call create_user_with_verification, return the
created user (public projection, modelled by its email) on success; catch
WeakPasswordError as 400; any other failure propagates. -/
def register_route (s : AuthState) (email password : String) (now : Int)
    (newTok newId : String) : HandlerOutcome :=
  match create_user_with_verification s email password now newTok newId with
  | .ok (u, s') => .response 200 u.email s'
  | .error e =>
    match register_error_response e with
    | some (st, d) => .response st d s
    | none => .unhandled e s

/-- Result of the login route: a token response or an HTTP error. -/
inductive LoginResult where
  | ok (access_token : AccessToken) (token_type : String)
  | err (status : Nat) (detail : String)
deriving DecidableEq, Repr

/-- src POST /auth/login: authenticate_user; 401 if none; otherwise issue
an access token whose subject is str of the user Mongo id, with token_type
bearer. -/
def login_route (s : AuthState) (username password : String) : LoginResult :=
  match authenticate_user s username password with
  | none => .err 401 "Incorrect email or password"
  | some u => .ok (create_access_token u.id) "bearer"

/-- src change-password except clauses: IncorrectPasswordError to 401 with
a fixed message; ValueError to 400 with detail str(e), the message carried
by the exception; WeakPasswordError to 400 with the fixed message. -/
def change_password_error_response : AuthError → Option (Nat × String)
  | .incorrectPassword => some (401, "Current password is incorrect")
  | .valueError m => some (400, m)
  | .weakPassword => some (400, weakPasswordMsg)
  | _ => none

/-- src POST /auth/change-password: update_password for the authenticated
user id, translating errors per change_password_error_response; other
failures propagate. -/
def change_password_route (s : AuthState) (userId current new : String) :
    HandlerOutcome :=
  match update_password s userId current new with
  | .ok s' => .response 200 "Password updated successfully" s'
  | .error e =>
    match change_password_error_response e with
    | some (st, d) => .response st d s
    | none => .unhandled e s

/-- src verify handler except clause: InvalidTokenError to 400 with a fixed
message. -/
def verify_error_response : AuthError → Option (Nat × String)
  | .invalidToken => some (400, "Invalid or expired verification token")
  | _ => none

/-- src GET /auth/verify/{token}: verify_email, 200 on success, 400 on
InvalidTokenError; other failures propagate. -/
def verify_route (s : AuthState) (tok : String) (now : Int) : HandlerOutcome :=
  match verify_email s tok now with
  | .ok s' => .response 200 "Email verified successfully" s'
  | .error e =>
    match verify_error_response e with
    | some (st, d) => .response st d s
    | none => .unhandled e s

/-- The fixed 429 rate-limit message of the resend-verification handler. -/
def rateLimitMsg : String :=
  "Please wait 2 minutes before requesting another verification email"

/-- src resend handler except clause: UserNotFoundError to 404 with a fixed
message (the raised 429 HTTPException is re-raised unchanged). -/
def resend_error_response : AuthError → Option (Nat × String)
  | .userNotFound => some (404, "User not found")
  | _ => none

/-- The tail of the resend handler after the rate-limit gate: call
resend_verification and translate its outcome. -/
def resend_proceed (s : AuthState) (email : String) (now : Int)
    (newTok : String) : HandlerOutcome :=
  match resend_verification s email now newTok with
  | .ok s' => .response 200 "Verification email resent" s'
  | .error e =>
    match resend_error_response e with
    | some (st, d) => .response st d s
    | none => .unhandled e s

/-- src POST /auth/resend-verification: read the last-sent timestamp; if
present, normalize a naive value to UTC via replace, subtract from
now (timezone-aware UTC), and reject with 429 when the difference is under
2 minutes (120 seconds); otherwise proceed with resend_verification. -/
def resend_route (s : AuthState) (email : String) (now : Int)
    (newTok : String) : HandlerOutcome :=
  match get_last_verification_sent s email with
  | some last_sent =>
    let current_time : PyDatetime := { aware := true, t := now }
    let ls := if last_sent.aware then last_sent else dt_replace_utc last_sent
    match tdSub current_time ls with
    | none => .unhandled .typeError s
    | some diff =>
      if diff < 120 then .response 429 rateLimitMsg s
      else resend_proceed s email now newTok
  | none => resend_proceed s email now newTok

/-- src POST /auth/forgot-password: send_password_reset; UserNotFoundError
is swallowed into the same 200 success body as the success path. -/
def forgot_route (s : AuthState) (email : String) (now : Int)
    (newTok : String) : HandlerOutcome :=
  match send_password_reset s email now newTok with
  | .ok s' => .response 200 "Password reset email sent" s'
  | .error .userNotFound => .response 200 "Password reset email sent" s
  | .error e => .unhandled e s

/-- src reset handler except clauses: InvalidTokenError to 400 with a fixed
message, WeakPasswordError to 400 with the fixed message. -/
def reset_error_response : AuthError → Option (Nat × String)
  | .invalidToken => some (400, "Invalid or expired reset token")
  | .weakPassword => some (400, weakPasswordMsg)
  | _ => none

/-- src POST /auth/reset-password/{token}: reset_password, translating
errors per reset_error_response; other failures propagate. -/
def reset_route (s : AuthState) (tok new : String) (now : Int) : HandlerOutcome :=
  match reset_password s tok new now with
  | .ok s' => .response 200 "Password reset successfully" s'
  | .error e =>
    match reset_error_response e with
    | some (st, d) => .response st d s
    | none => .unhandled e s

/-- A concrete demonstration state: one registered user (password
abc12345), one live verification token v1, one live reset token r1, one
recorded verification send at t = 0. -/
def demoUser : User :=
  { email := "a@x.com", passwordHash := hashPw "abc12345",
    verified := false, id := "507f1f77bcf86cd799439011" }

/-- The live verification token of the demonstration state. -/
def demoVTok : Token :=
  { value := "v1", owner := "a@x.com", expiry := 1000,
    consumed := false, purpose := .verification }

/-- The live password-reset token of the demonstration state. -/
def demoRTok : Token :=
  { value := "r1", owner := "a@x.com", expiry := 1000,
    consumed := false, purpose := .passwordReset }

/-- The demonstration state. -/
def demoState : AuthState :=
  { users := [demoUser], tokens := [demoVTok, demoRTok],
    lastVerificationSent := [("a@x.com", { aware := false, t := 0 })],
    sentEmails := [] }

/-- The demonstration state after the verification token v1 was used: the
user is verified and v1 is consumed. -/
def demoStateVerified : AuthState :=
  { users := [{ demoUser with verified := true }],
    tokens := [{ demoVTok with consumed := true }, demoRTok],
    lastVerificationSent := [("a@x.com", { aware := false, t := 0 })],
    sentEmails := [] }

/-- Claim C4: for every email and state, POST /auth/forgot-password returns
HTTP 200 with the same generic success body whether or not the user exists;
UserNotFoundError is swallowed into the success response. -/
theorem forgot_password_uniform_success :
    ∀ (s : AuthState) (email : String) (now : Int) (newTok : String),
      ∃ s', forgot_route s email now newTok
              = .response 200 "Password reset email sent" s' := by
  intro s email now tv
  cases h : s.users.find? (fun u => u.email == normalize_email email) with
  | none => exact ⟨s, by simp [forgot_route, send_password_reset, h]⟩
  | some u =>
    exact ⟨{ s with
             tokens := { value := tv, owner := u.email, expiry := now + 3600,
                         consumed := false, purpose := .passwordReset } :: s.tokens,
             sentEmails := u.email :: s.sentEmails },
           by simp [forgot_route, send_password_reset, h]⟩

/-- Claim C9 counterexample: the change-password handler translates
ValueError to a response whose detail is the message carried by the
exception, so two ValueErrors with different messages produce different
user-facing details — the message is not fixed and includes the exception
content. -/
theorem change_password_value_error_detail_echoes_exception :
    change_password_error_response (.valueError "A") = some (400, "A")
    ∧ change_password_error_response (.valueError "B") = some (400, "B")
    ∧ ("A" : String) ≠ "B" := by
  exact ⟨rfl, rfl, by decide⟩

/-- Claim C9 amended: the API layer maps WeakPasswordError,
IncorrectPasswordError, InvalidTokenError and UserNotFoundError to fixed
status/message pairs, but it maps ValueError to 400 with the detail equal
to the message carried by the exception (detail set to str of e). -/
theorem api_error_translation_amended :
    ∀ m : String,
      register_error_response .weakPassword = some (400, weakPasswordMsg)
      ∧ change_password_error_response .incorrectPassword
          = some (401, "Current password is incorrect")
      ∧ change_password_error_response .weakPassword = some (400, weakPasswordMsg)
      ∧ change_password_error_response (.valueError m) = some (400, m)
      ∧ verify_error_response .invalidToken
          = some (400, "Invalid or expired verification token")
      ∧ resend_error_response .userNotFound = some (404, "User not found")
      ∧ reset_error_response .invalidToken
          = some (400, "Invalid or expired reset token")
      ∧ reset_error_response .weakPassword = some (400, weakPasswordMsg) := by
  intro m
  exact ⟨rfl, rfl, rfl, rfl, rfl, rfl, rfl, rfl⟩

/-- Claim C8 counterexample: a successful login issues an access token
whose subject is str of the user Mongo record id, not the (case-normalized)
email identity of the data model. -/
theorem access_token_subject_is_db_id_not_email :
    login_route demoState "a@x.com" "abc12345"
      = .ok { sub := "507f1f77bcf86cd799439011" } "bearer"
    ∧ demoUser.email = "a@x.com"
    ∧ ("507f1f77bcf86cd799439011" : String) ≠ "a@x.com" := by
  exact ⟨by decide, rfl, by decide⟩

/-- Claim C8 amended: for every successful login, the issued access token
subject is str of the user database record id. -/
theorem login_token_subject_amended :
    ∀ (s : AuthState) (email password : String) (u : User),
      authenticate_user s email password = some u →
      login_route s email password = .ok { sub := u.id } "bearer" := by
  intro s e p u h
  simp [login_route, h, create_access_token]

/-- Claim C8 witness: the amended statement at the demonstration state. -/
theorem login_token_subject_amended_w :
    login_route demoState "a@x.com" "abc12345" = .ok { sub := demoUser.id } "bearer" :=
  login_token_subject_amended demoState "a@x.com" "abc12345" demoUser (by decide)

/-- Claim C6: authenticate_user returns none both when no user has the
normalized email and when the password does not match the stored hash; in
both cases POST /auth/login responds 401 with the fixed message; on success
the response carries an access token and token_type bearer. -/
theorem login_error_and_success_translation :
    ∀ (s : AuthState) (email password : String),
      (s.users.find? (fun u => u.email == normalize_email email) = none →
        authenticate_user s email password = none)
      ∧ (∀ u, s.users.find? (fun u => u.email == normalize_email email) = some u →
          (hashPw password == u.passwordHash) = false →
          authenticate_user s email password = none)
      ∧ (authenticate_user s email password = none →
          login_route s email password = .err 401 "Incorrect email or password")
      ∧ (∀ u, authenticate_user s email password = some u →
          login_route s email password = .ok (create_access_token u.id) "bearer") := by
  intro s email password
  refine ⟨?_, ?_, ?_, ?_⟩
  · intro h; simp [authenticate_user, h]
  · intro u h hpw; simp [authenticate_user, h, hpw]
  · intro h; simp [login_route, h]
  · intro u h; simp [login_route, h]

/-- Claim C6 witness: unknown email and wrong password both yield 401 at
the demonstration state; the correct password yields the bearer token. -/
theorem login_error_and_success_translation_w :
    authenticate_user demoState "nobody@x.com" "abc12345" = none
    ∧ authenticate_user demoState "a@x.com" "wrongpass" = none
    ∧ login_route demoState "a@x.com" "wrongpass"
        = .err 401 "Incorrect email or password"
    ∧ login_route demoState "a@x.com" "abc12345"
        = .ok (create_access_token demoUser.id) "bearer" := by
  refine ⟨?_, ?_, ?_, ?_⟩
  · exact (login_error_and_success_translation demoState "nobody@x.com" "abc12345").1 (by decide)
  · exact (login_error_and_success_translation demoState "a@x.com" "wrongpass").2.1
      demoUser (by decide) (by decide)
  · exact (login_error_and_success_translation demoState "a@x.com" "wrongpass").2.2.1 (by decide)
  · exact (login_error_and_success_translation demoState "a@x.com" "abc12345").2.2.2
      demoUser (by decide)

/-- Claim C1 counterexample: registering an already-registered email does
not produce HTTP 400 — the handler catches only WeakPasswordError, so the
email-taken failure propagates out of the route and surfaces as 500. -/
theorem register_email_taken_not_400 :
    register_route demoState "a@x.com" "abc12345" 0 "t9" "u9"
      = .unhandled .emailTaken demoState
    ∧ (serve (register_route demoState "a@x.com" "abc12345" 0 "t9" "u9")).1 = 500
    ∧ (serve (register_route demoState "a@x.com" "abc12345" 0 "t9" "u9")).1 ≠ 400 := by
  exact ⟨by decide, by decide, by decide⟩

/-- Claim C1 amended: POST /auth/register returns 400 with the fixed
message on a weak password (the translation of WeakPasswordError); when the
password is strong but the email is already registered, the handler catches
nothing and the failure propagates (surfacing as a generic 500), not 400. -/
theorem register_error_translation_amended :
    ∀ (s : AuthState) (email password : String) (now : Int) (newTok newId : String),
      (strength_ok password = false →
        register_route s email password now newTok newId
          = .response 400 weakPasswordMsg s)
      ∧ (strength_ok password = true → email_registered s email = true →
        register_route s email password now newTok newId
          = .unhandled .emailTaken s) := by
  intro s email password now newTok newId
  constructor
  · intro hw
    simp [register_route, create_user_with_verification, hw, register_error_response]
  · intro hs ht
    simp [register_route, create_user_with_verification, hs, ht, register_error_response]

/-- Claim C1 witness: the amended statement at the demonstration state,
with a weak password for a fresh email and a strong password for the
already-registered email. -/
theorem register_error_translation_amended_w :
    register_route demoState "b@x.com" "short" 0 "t8" "u8"
      = .response 400 weakPasswordMsg demoState
    ∧ register_route demoState "a@x.com" "abc12345" 0 "t8" "u8"
      = .unhandled .emailTaken demoState := by
  exact ⟨(register_error_translation_amended demoState "b@x.com" "short" 0 "t8" "u8").1
           (by decide),
         (register_error_translation_amended demoState "a@x.com" "abc12345" 0 "t8" "u8").2
           (by decide) (by decide)⟩

/-- Claim C7 counterexample: a change-password request whose new password
equals the supplied current password fails with IncorrectPasswordError and
HTTP 401 — not ValueError and 400 — when the supplied current password does
not match the stored hash. -/
theorem change_password_same_but_wrong_current :
    update_password demoState "507f1f77bcf86cd799439011" "wrongpw1" "wrongpw1"
      = .error .incorrectPassword
    ∧ change_password_route demoState "507f1f77bcf86cd799439011" "wrongpw1" "wrongpw1"
      = .response 401 "Current password is incorrect" demoState := by
  exact ⟨by decide, by decide⟩

/-- Claim C7 amended: when the supplied current password matches the stored
hash and the new password equals it, update_password fails with ValueError
regardless of the new password strength, the endpoint maps this to HTTP 400,
and the state (hence the stored hash) is unchanged. -/
theorem change_password_same_password_amended :
    ∀ (s : AuthState) (userId current : String) (u : User),
      s.users.find? (fun v => v.id == userId) = some u →
      hashPw current = u.passwordHash →
      update_password s userId current current = .error (.valueError samePasswordMsg)
      ∧ change_password_route s userId current current
          = .response 400 samePasswordMsg s
      ∧ outcome_state (change_password_route s userId current current) = s := by
  intro s userId current u hfind hh
  have h1 : update_password s userId current current
      = .error (.valueError samePasswordMsg) := by
    simp [update_password, hfind, hh]
  refine ⟨h1, ?_, ?_⟩
  · simp [change_password_route, h1, change_password_error_response]
  · simp [change_password_route, h1, change_password_error_response, outcome_state]

/-- Claim C7 witness: the amended statement at the demonstration state. -/
theorem change_password_same_password_amended_w :
    update_password demoState "507f1f77bcf86cd799439011" "abc12345" "abc12345"
      = .error (.valueError samePasswordMsg)
    ∧ change_password_route demoState "507f1f77bcf86cd799439011" "abc12345" "abc12345"
        = .response 400 samePasswordMsg demoState
    ∧ outcome_state
        (change_password_route demoState "507f1f77bcf86cd799439011" "abc12345" "abc12345")
        = demoState :=
  change_password_same_password_amended demoState "507f1f77bcf86cd799439011" "abc12345"
    demoUser (by decide) (by decide)

/-- Finding a token by value in a list where the matching tokens were just
marked consumed yields the consumed version of the original find result:
the consume map preserves token values. -/
theorem find?_consume (l : List Token) (tok : String) :
    (l.map (fun tk => if tk.value == tok then { tk with consumed := true } else tk)).find?
      (fun tk => tk.value == tok)
    = (l.find? (fun tk => tk.value == tok)).map
        (fun tk => { tk with consumed := true }) := by
  rw [List.find?_map]
  have hp : ((fun tk : Token => tk.value == tok)
        ∘ (fun tk => if tk.value == tok then { tk with consumed := true } else tk))
      = (fun tk : Token => tk.value == tok) := by
    funext tk
    by_cases h : tk.value = tok <;> simp [h]
  rw [hp]
  cases hf : l.find? (fun tk => tk.value == tok) with
  | none => rfl
  | some a =>
    have ha := List.find?_some hf
    have ha2 : a.value = tok := by simpa using ha
    simp [ha2]

/-- A successful verify_email saw a stored token with the requested value
and replaced the token list by the same list with that value consumed. -/
theorem verify_email_ok_tokens (s : AuthState) (tok : String) (now : Int)
    (s' : AuthState) (h : verify_email s tok now = .ok s') :
    ∃ t, s.tokens.find? (fun tk => tk.value == tok) = some t
      ∧ s'.tokens = s.tokens.map
          (fun tk => if tk.value == tok then { tk with consumed := true } else tk) := by
  unfold verify_email at h
  cases hfind : s.tokens.find? (fun tk => tk.value == tok) with
  | none => rw [hfind] at h; cases h
  | some t =>
    rw [hfind] at h
    dsimp only at h
    refine ⟨t, rfl, ?_⟩
    by_cases h1 : t.consumed = true
    · rw [if_pos h1] at h; cases h
    · rw [if_neg h1] at h
      by_cases h2 : (t.purpose == TokenPurpose.verification) = false
      · rw [if_pos h2] at h; cases h
      · rw [if_neg h2] at h
        by_cases h3 : decide (now < t.expiry) = false
        · rw [if_pos h3] at h; cases h
        · rw [if_neg h3] at h
          cases h
          rfl

/-- Claim C2: the strength predicate holds iff the password has at least 8
characters, a letter and a digit; the same predicate strength_ok decides
the WeakPasswordError outcome of registration, password change and
password reset. -/
theorem password_policy_single_predicate :
    ∀ (p : String) (s : AuthState) (email : String) (now : Int)
      (newTok newId userId current tokVal : String) (u : User) (t : Token),
      (strength_ok p = true ↔
        (8 ≤ p.length ∧ (∃ c ∈ p.data, c.isAlpha = true) ∧ (∃ c ∈ p.data, c.isDigit = true)))
      ∧ (create_user_with_verification s email p now newTok newId
            = .error .weakPassword ↔ strength_ok p = false)
      ∧ (s.users.find? (fun v => v.id == userId) = some u →
          hashPw current = u.passwordHash → (p == current) = false →
          (update_password s userId current p = .error .weakPassword
            ↔ strength_ok p = false))
      ∧ (s.tokens.find? (fun tk => tk.value == tokVal) = some t →
          t.consumed = false → t.purpose = TokenPurpose.passwordReset →
          now < t.expiry →
          (reset_password s tokVal p now = .error .weakPassword
            ↔ strength_ok p = false)) := by
  intro p s email now newTok newId userId current tokVal u t
  refine ⟨?_, ?_, ?_, ?_⟩
  · simp [strength_ok, has_letter, has_digit, List.any_eq_true, and_assoc]
  · cases hs : strength_ok p with
    | false => simp [create_user_with_verification, hs]
    | true =>
      simp only [create_user_with_verification]
      rw [if_neg (by simp [hs])]
      split <;> simp [hs]
  · intro hfind hh hneq
    cases hs : strength_ok p with
    | false => simp [update_password, hfind, hh, hneq, hs]
    | true => simp [update_password, hfind, hh, hneq, hs]
  · intro hfind hcons hpurp hexp
    cases hs : strength_ok p with
    | false => simp [reset_password, hfind, hcons, hpurp, hexp, hs]
    | true => simp [reset_password, hfind, hcons, hpurp, hexp, hs]

/-- Claim C2 witness: the weak candidate password short is rejected at both
password change and password reset on the demonstration state. -/
theorem password_policy_single_predicate_w :
    (update_password demoState "507f1f77bcf86cd799439011" "abc12345" "short"
        = .error .weakPassword ↔ strength_ok "short" = false)
    ∧ (reset_password demoState "r1" "short" 0 = .error .weakPassword
        ↔ strength_ok "short" = false) := by
  refine ⟨(password_policy_single_predicate "short" demoState "e" 0 "tk" "id"
            "507f1f77bcf86cd799439011" "abc12345" "r1" demoUser demoRTok).2.2.1
            (by decide) (by decide) (by decide),
          (password_policy_single_predicate "short" demoState "e" 0 "tk" "id"
            "507f1f77bcf86cd799439011" "abc12345" "r1" demoUser demoRTok).2.2.2
            (by decide) (by decide) (by decide) (by decide)⟩

/-- Claim C3: a successful verify_email consumes the token, so a second
verify_email call with the same token fails with InvalidTokenError at any
later time, and the GET /auth/verify/{token} route maps that failure to
HTTP 400 with its fixed message. -/
theorem verify_token_single_use :
    ∀ (s : AuthState) (tok : String) (now nowLater : Int) (s' : AuthState),
      verify_email s tok now = .ok s' →
      verify_email s' tok nowLater = .error .invalidToken
      ∧ verify_route s' tok nowLater
          = .response 400 "Invalid or expired verification token" s' := by
  intro s tok now nowLater s' h
  obtain ⟨t, hfind, htoks⟩ := verify_email_ok_tokens s tok now s' h
  have h2 : verify_email s' tok nowLater = .error .invalidToken := by
    unfold verify_email
    rw [htoks, find?_consume, hfind]
    simp
  exact ⟨h2, by simp [verify_route, h2, verify_error_response]⟩

/-- Claim C3 witness: verifying the demonstration token v1 succeeds once;
the second call on the resulting state fails with InvalidTokenError and the
route answers 400. -/
theorem verify_token_single_use_w :
    verify_email demoStateVerified "v1" 500 = .error .invalidToken
    ∧ verify_route demoStateVerified "v1" 500
        = .response 400 "Invalid or expired verification token" demoStateVerified :=
  verify_token_single_use demoState "v1" 0 500 demoStateVerified (by decide)

/-- Claim C5: the resend-verification gate subtracts after normalizing a
naive stored timestamp to UTC (so the subtraction is defined and equals the
difference of instants); a send under 2 minutes old is rejected with 429;
otherwise, and also when no send was recorded, the resend succeeds with 200
and the recorded last-sent timestamp becomes now. -/
theorem resend_rate_limit_policy :
    ∀ (s : AuthState) (email : String) (now : Int) (newTok : String) (ls : PyDatetime),
      (tdSub { aware := true, t := now } (if ls.aware then ls else dt_replace_utc ls)
          = some (now - ls.t))
      ∧ (get_last_verification_sent s email = some ls → now - ls.t < 120 →
          resend_route s email now newTok = .response 429 rateLimitMsg s)
      ∧ (∀ u, get_last_verification_sent s email = some ls → ¬ now - ls.t < 120 →
          s.users.find? (fun v => v.email == normalize_email email) = some u →
          ∃ s', resend_route s email now newTok
              = .response 200 "Verification email resent" s'
            ∧ get_last_verification_sent s' email = some { aware := false, t := now })
      ∧ (∀ u, get_last_verification_sent s email = none →
          s.users.find? (fun v => v.email == normalize_email email) = some u →
          ∃ s', resend_route s email now newTok
              = .response 200 "Verification email resent" s'
            ∧ get_last_verification_sent s' email = some { aware := false, t := now }) := by
  intro s email now newTok ls
  have hnorm : tdSub { aware := true, t := now }
      (if ls.aware then ls else dt_replace_utc ls) = some (now - ls.t) := by
    cases ha : ls.aware <;> simp [tdSub, dt_replace_utc, ha]
  have hproceed : ∀ u, s.users.find? (fun v => v.email == normalize_email email) = some u →
      ∃ s', resend_proceed s email now newTok
          = .response 200 "Verification email resent" s'
        ∧ get_last_verification_sent s' email = some { aware := false, t := now } := by
    intro u hfind
    have hu := List.find?_some hfind
    refine ⟨{ s with
        tokens := { value := newTok, owner := u.email, expiry := now + 86400,
                    consumed := false, purpose := .verification } :: s.tokens,
        lastVerificationSent := (u.email, { aware := false, t := now })
            :: s.lastVerificationSent,
        sentEmails := u.email :: s.sentEmails }, ?_, ?_⟩
    · simp [resend_proceed, resend_verification, hfind]
    · simp [get_last_verification_sent, List.find?, hu]
  refine ⟨hnorm, ?_, ?_, ?_⟩
  · intro hl hlt
    cases ha : ls.aware with
    | false => simp [resend_route, hl, tdSub, dt_replace_utc, ha, hlt]
    | true => simp [resend_route, hl, tdSub, dt_replace_utc, ha, hlt]
  · intro u hl hge hfind
    have hmain : resend_route s email now newTok = resend_proceed s email now newTok := by
      cases ha : ls.aware with
      | false => simp [resend_route, hl, tdSub, dt_replace_utc, ha, hge]
      | true => simp [resend_route, hl, tdSub, dt_replace_utc, ha, hge]
    rw [hmain]
    exact hproceed u hfind
  · intro u hl hfind
    have hmain : resend_route s email now newTok = resend_proceed s email now newTok := by
      simp [resend_route, hl]
    rw [hmain]
    exact hproceed u hfind

/-- Claim C5 witness: on the demonstration state (last send recorded at
t = 0, stored naive), a resend at t = 60 is rejected with 429 and a resend
at t = 600 succeeds and moves the recorded timestamp to 600. -/
theorem resend_rate_limit_policy_w :
    resend_route demoState "a@x.com" 60 "t5" = .response 429 rateLimitMsg demoState
    ∧ ∃ s', resend_route demoState "a@x.com" 600 "t5"
          = .response 200 "Verification email resent" s'
        ∧ get_last_verification_sent s' "a@x.com"
            = some { aware := false, t := 600 } := by
  refine ⟨(resend_rate_limit_policy demoState "a@x.com" 60 "t5"
            { aware := false, t := 0 }).2.1 (by decide) (by decide),
          (resend_rate_limit_policy demoState "a@x.com" 600 "t5"
            { aware := false, t := 0 }).2.2.1 demoUser (by decide) (by decide) (by decide)⟩

/-- Claim C10: when the stored last-sent timestamp (normalized to UTC) is
less than 2 minutes before now, the resend-verification handler answers 429
before resend_verification runs: the returned state is the input state, so
no token is issued, no email is dispatched, and the last-sent timestamp is
unchanged. -/
theorem resend_rate_limited_no_side_effects :
    ∀ (s : AuthState) (email : String) (now : Int) (newTok : String) (ls : PyDatetime),
      get_last_verification_sent s email = some ls →
      now - (if ls.aware then ls else dt_replace_utc ls).t < 120 →
      resend_route s email now newTok = .response 429 rateLimitMsg s
      ∧ (outcome_state (resend_route s email now newTok)).tokens = s.tokens
      ∧ (outcome_state (resend_route s email now newTok)).sentEmails = s.sentEmails
      ∧ (outcome_state (resend_route s email now newTok)).lastVerificationSent
          = s.lastVerificationSent := by
  intro s email now newTok ls hl hlt
  have hnif : (if ls.aware then ls else dt_replace_utc ls).t = ls.t := by
    cases ha : ls.aware <;> simp [dt_replace_utc]
  have hlt2 : now - ls.t < 120 := by rw [hnif] at hlt; exact hlt
  have h1 : resend_route s email now newTok = .response 429 rateLimitMsg s := by
    cases ha : ls.aware <;>
      simp [resend_route, hl, tdSub, dt_replace_utc, ha, hlt2]
  rw [h1]
  exact ⟨rfl, rfl, rfl, rfl⟩

/-- Claim C10 witness: the rate-limited resend at t = 60 on the
demonstration state leaves tokens, sent emails and the last-sent log
unchanged. -/
theorem resend_rate_limited_no_side_effects_w :
    resend_route demoState "a@x.com" 60 "t6" = .response 429 rateLimitMsg demoState
    ∧ (outcome_state (resend_route demoState "a@x.com" 60 "t6")).tokens
        = demoState.tokens
    ∧ (outcome_state (resend_route demoState "a@x.com" 60 "t6")).sentEmails
        = demoState.sentEmails
    ∧ (outcome_state (resend_route demoState "a@x.com" 60 "t6")).lastVerificationSent
        = demoState.lastVerificationSent :=
  resend_rate_limited_no_side_effects demoState "a@x.com" 60 "t6"
    { aware := false, t := 0 } (by decide) (by decide)

end BackendTemplate
